import Mathlib

/-!
Shallow embedding of the verification core of the SmartAttendanceSystem
backend (TypeScript), covering:

* `config/attendance.config.ts` — policy constants;
* `utils/token.ts` — `generateQRToken` / `verifyQRToken` over an abstract
  model of the `jsonwebtoken` sign/verify pair;
* `utils/flags.ts` — `detectSpoofing`;
* `utils/mfa.ts` — `evaluateMFA` (as invoked by the controller, which
  passes a five-field object whose values are all counted by
  `Object.values`);
* `services/rekognition.service.ts` — the result classification of
  `verifyFace`;
* `controllers/attendance.controller.ts` — `checkIn` and `checkOut` as
  pure functions from the request, the authenticated user, the stored
  user record and an environment (clock, trusted IP list, geo-distance
  function, face-oracle response) to an outcome that is either a
  structured rejection or a record handed to storage plus the client
  report.

JavaScript numbers are modelled as `ℚ`; a value that is `NaN` after
`Number(·)` is modelled as `none : Option ℚ`.  Millisecond clocks are `ℤ`.
-/

namespace SmartAttendance

/-! ### Policy configuration (`config/attendance.config.ts`) -/

/-- Policy constant `ATTENDANCE_CONFIG.REQUIRED_FACTORS`. -/
def REQUIRED_FACTORS : Nat := 2

/-- Policy constant `ATTENDANCE_CONFIG.MAX_DISTANCE_METERS`. -/
def MAX_DISTANCE_METERS : ℚ := 300

/-- Policy constant `ATTENDANCE_CONFIG.MAX_ACCURACY_METERS`. -/
def MAX_ACCURACY_METERS : ℚ := 500

/-! ### Token utility (`utils/token.ts`) -/

/-- The payload signed into a QR token.  `expiresAt` is `Option ℤ` because
`verifyQRToken` reads it off an untyped decoded object: `none` models an
absent field, and the JavaScript truthiness test `decoded.expiresAt && …`
also treats the number `0` as falsy. -/
structure JwtPayload where
  officeId : String
  expiresAt : Option ℤ
  createdBy : String
deriving DecidableEq, Repr

/-- Abstract model of a `jsonwebtoken` token string: either a payload
signed under some secret, or a malformed string. -/
inductive Token where
  | signed (payload : JwtPayload) (secret : String)
  | malformed (s : String)
deriving DecidableEq, Repr

/-- Abstract model of `jwt.verify(token, secret)`: returns the payload when
the token was signed under the same secret, and throws otherwise (modelled
as `Except`). -/
def jwtVerify (t : Token) (secret : String) : Except String JwtPayload :=
  match t with
  | .signed p s => if s = secret then .ok p else .error "invalid signature"
  | .malformed _ => .error "jwt malformed"

/-- Model of `generateQRToken(officeId, createdBy, expiresInMinutes = 60)`:
`expiresAt = Date.now() + expiresInMinutes * 60 * 1000`, then
`jwt.sign({officeId, expiresAt, createdBy}, JWT_SECRET)` (no envelope
expiry).  `nowMs` models `Date.now()`; `secret` the module's `JWT_SECRET`. -/
def generateQRToken (secret : String) (nowMs : ℤ) (officeId createdBy : String)
    (expiresInMinutes : ℤ) : Token :=
  .signed ⟨officeId, some (nowMs + expiresInMinutes * 60 * 1000), createdBy⟩ secret

/-- Model of `verifyQRToken(token)`: `jwt.verify` inside a `try`, returning `null`
on any throw; then `if (decoded.expiresAt && decoded.expiresAt < Date.now())
return null; return decoded`. -/
def verifyQRToken (secret : String) (nowMs : ℤ) (t : Token) : Option JwtPayload :=
  match jwtVerify t secret with
  | .error _ => none
  | .ok d =>
    match d.expiresAt with
    | none => some d
    | some e => if e ≠ 0 ∧ e < nowMs then none else some d

/-! ### Spoofing detector (`utils/flags.ts`) -/

/-- Result of `detectSpoofing`. -/
structure SpoofResult where
  isSuspicious : Bool
  reasons : List String
deriving DecidableEq, Repr

/-- JavaScript `a > b` where `a` may be `NaN` (modelled `none`): any
comparison with `NaN` is false. -/
def jsGtOpt (a : Option ℚ) (b : ℚ) : Bool :=
  match a with
  | none => false
  | some x => decide (b < x)

/-- Model of `detectSpoofing({distanceMeters, gpsAccuracy})`: pushes
`'gps_accuracy_too_low'` when `gpsAccuracy > MAX_ACCURACY_METERS`, pushes
`'distance_out_of_range'` when `distanceMeters > 200` (a literal, not the
MFA distance threshold), and sets `isSuspicious := reasons.length > 0`. -/
def detectSpoofing (distanceMeters : ℚ) (gpsAccuracy : Option ℚ) : SpoofResult :=
  let reasons :=
    (if jsGtOpt gpsAccuracy MAX_ACCURACY_METERS then ["gps_accuracy_too_low"] else [])
      ++ (if decide (200 < distanceMeters) then ["distance_out_of_range"] else [])
  ⟨reasons.length > 0, reasons⟩

/-! ### MFA decision (`utils/mfa.ts`)

The TypeScript `Factors` interface declares four fields, but
`evaluateMFA` computes `Object.values(factors).filter(f => f).length`
over the object it is actually given, and the controller's only call
site passes `{ gpsVerified, qrVerified, ipVerified, photoVerified,
faceVerified }` — five booleans, all of which are counted.  The structure
below is the call-site object. -/

structure Factors where
  gpsVerified : Bool
  qrVerified : Bool
  ipVerified : Bool
  photoVerified : Bool
  faceVerified : Bool
deriving DecidableEq, Repr

/-- Model of `Object.values(factors)` at the controller's call site, in property
insertion order. -/
def Factors.values (f : Factors) : List Bool :=
  [f.gpsVerified, f.qrVerified, f.ipVerified, f.photoVerified, f.faceVerified]

/-- Model of `evaluateMFA(factors)`: count the truthy values of the passed object
and compare with `REQUIRED_FACTORS`. -/
def evaluateMFA (f : Factors) : Bool :=
  REQUIRED_FACTORS ≤ (f.values.filter (fun b => b)).length

/-! ### Face oracle (`services/rekognition.service.ts`, `verifyFace`) -/

/-- One entry of `response.FaceMatches` from `SearchFacesByImage`. -/
structure FaceMatch where
  externalImageId : String
  similarity : ℚ
  confidence : ℚ
  faceId : String
deriving DecidableEq, Repr

/-- What the AWS call (`this.client.send(command)`, including reading the
probe image) yields for the request's probe image: a thrown error, or a
(possibly empty) match list. -/
inductive RekognitionResponse where
  | sendError (msg : String)
  | ok (found : List FaceMatch)
deriving DecidableEq, Repr

/-- Result record of `verifyFace`. -/
structure FaceVerificationResult where
  success : Bool
  matched : Bool
  confidence : Option ℚ
  faceId : Option String
  similarity : Option ℚ
  error : Option String
deriving DecidableEq, Repr

/-- Model of `RekognitionService.verifyFace(imagePath, expectedUserId)`:
not configured ⇒ `{success:false, matched:false}`; a thrown AWS/file error
⇒ `{success:false, matched:false}`; empty `FaceMatches` ⇒
`{success:true, matched:false, error:'No matching face found'}`;
a match whose `ExternalImageId` equals the expected user ⇒
`{success:true, matched:true, similarity, confidence, faceId}`;
matches only for other identities ⇒
`{success:true, matched:false, error:'Face does not match the expected user'}`. -/
def verifyFace (isConfigured : Bool) (resp : RekognitionResponse)
    (expectedUserId : String) : FaceVerificationResult :=
  if !isConfigured then
    ⟨false, false, none, none, none, some "AWS Rekognition not configured"⟩
  else
    match resp with
    | .sendError msg => ⟨false, false, none, none, none, some msg⟩
    | .ok found =>
      if found.isEmpty then
        ⟨true, false, none, none, none, some "No matching face found"⟩
      else
        match found.find? (fun m => m.externalImageId = expectedUserId) with
        | some m => ⟨true, true, some m.confidence, some m.faceId, some m.similarity, none⟩
        | none => ⟨true, false, none, none, none, some "Face does not match the expected user"⟩

/-! ### Attendance controller (`controllers/attendance.controller.ts`) -/

/-- The subject's assigned office (referenced office document). -/
structure Office where
  id : String
  lat : ℚ
  lng : ℚ
deriving DecidableEq, Repr

/-- The stored user document as read by the controller. -/
structure DbUser where
  office : Option Office
  faceRegistered : Bool
  faceId : Option String
deriving DecidableEq, Repr

/-- Request body and transport data of a check-in: `lat`, `lng`,
`accuracy` are `none` when `Number(·)` gives `NaN`; `file` is the uploaded
probe image's path when present; `qrToken` is the presented token string
(`none` for absent/empty, which is falsy). -/
structure CheckInRequest where
  lat : Option ℚ
  lng : Option ℚ
  accuracy : Option ℚ
  qrToken : Option Token
  file : Option String
  ip : String
  comment : Option String
deriving DecidableEq, Repr

/-- Request body and transport data of a check-out (no file upload). -/
structure CheckOutRequest where
  lat : Option ℚ
  lng : Option ℚ
  accuracy : Option ℚ
  qrToken : Option Token
  ip : String
  comment : Option String
deriving DecidableEq, Repr

/-- Ambient state the controller reads: the geo-distance utility, the
trusted IP list from configuration, the JWT secret, the millisecond clock
(`Date.now()`), the wall clock (`getHours()` / `getMinutes()`), and the
face oracle's availability and answer for this request's probe. -/
structure Env where
  dist : ℚ → ℚ → ℚ → ℚ → ℚ
  officeIpRanges : List String
  jwtSecret : String
  nowMs : ℤ
  hour : Nat
  minute : Nat
  rekAvailable : Bool
  rekResponse : RekognitionResponse

/-- The `details` object of the presence-gate denial. -/
structure LocationDenialDetails where
  distanceMeters : ℤ
  accuracyMeters : Option ℚ
  allowedDistance : ℚ
  allowedAccuracy : ℚ
  ipAddress : String
  isIpVerified : Bool
  isGpsVerified : Bool
deriving DecidableEq, Repr

/-- Structured data attached to an error response. -/
inductive ErrorData where
  | locationDenial (reason : String) (details : LocationDenialDetails)
  | faceError (error : Option String)
  | faceMismatch (similarity : Option ℚ) (threshold : ℚ)
deriving DecidableEq, Repr

/-- The fields the controller hands to the `Attendance` constructor —
what gets persisted.  A field the controller does not set is `none`. -/
structure AttendanceRecord where
  userId : String
  typ : String
  lat : Option ℚ
  lng : Option ℚ
  accuracyMeters : Option ℚ
  ipAddress : String
  photoUrl : Option String
  qrTokenId : Option Token
  gpsVerified : Bool
  qrVerified : Bool
  ipVerified : Bool
  photoVerified : Option Bool
  verified : Option Bool
  isSuspicious : Option Bool
  suspiciousReasons : Option (List String)
  isLate : Option Bool
  isEarlyLeave : Option Bool
  userComment : Option String
deriving DecidableEq, Repr

/-- Face-verification detail echoed in the success response. -/
structure FaceVerificationDetails where
  matched : Bool
  similarity : Option ℚ
  confidence : Option ℚ
deriving DecidableEq, Repr

/-- Payload of the check-in success response. -/
structure CheckInReport where
  verified : Bool
  factors : Factors
  suspicious : Bool
  reasons : List String
  isLate : Bool
  faceVerification : Option FaceVerificationDetails
deriving DecidableEq, Repr

/-- Payload of the check-out success response. -/
structure CheckOutReport where
  isEarlyLeave : Bool
  gpsVerified : Bool
  qrVerified : Bool
  ipVerified : Bool
deriving DecidableEq, Repr

/-- Outcome of a check-in request: an error response, or a record written
to storage together with the success response. -/
inductive CheckInOutcome where
  | error (status : Nat) (message : String) (data : Option ErrorData)
  | ok (record : AttendanceRecord) (report : CheckInReport)
deriving DecidableEq, Repr

/-- Outcome of a check-out request. -/
inductive CheckOutOutcome where
  | error (status : Nat) (message : String) (data : Option ErrorData)
  | ok (record : AttendanceRecord) (report : CheckOutReport)
deriving DecidableEq, Repr

/-- Number of storage writes a check-in outcome performs. -/
def CheckInOutcome.persisted : CheckInOutcome → Nat
  | .ok _ _ => 1
  | .error _ _ _ => 0

/-- Number of storage writes a check-out outcome performs. -/
def CheckOutOutcome.persisted : CheckOutOutcome → Nat
  | .ok _ _ => 1
  | .error _ _ _ => 0

/-- Whether a check-in outcome is an error response. -/
def CheckInOutcome.isError : CheckInOutcome → Bool
  | .error _ _ _ => true
  | .ok _ _ => false

/-- The HTTP status of a check-in error response, if any. -/
def CheckInOutcome.errorStatus : CheckInOutcome → Option Nat
  | .error s _ _ => some s
  | .ok _ _ => none

/-- The message of a check-in error response, if any. -/
def CheckInOutcome.errorMessage : CheckInOutcome → Option String
  | .error _ m _ => some m
  | .ok _ _ => none

/-- Flag `isLate = (hour >= 10 && now.getMinutes() > 0) || hour > 10`. -/
def isLateFlag (hour minute : Nat) : Bool :=
  (decide (10 ≤ hour) && decide (0 < minute)) || decide (10 < hour)

/-- JavaScript `Math.round` on a finite number: `⌊q + 1/2⌋`. -/
def jsRound (q : ℚ) : ℤ := (q + 1 / 2).floor

/-- The `distance` variable: `0` unless all of lat/lng/accuracy are
numbers, in which case `getDistanceFromLatLonInMeters(lat, lng,
office.lat, office.lng)`. -/
def distanceOf (env : Env) (office : Office)
    (lat lng accuracy : Option ℚ) : ℚ :=
  match lat, lng, accuracy with
  | some la, some ln, some _ => env.dist la ln office.lat office.lng
  | _, _, _ => 0

/-- The GPS factor: all of lat/lng/accuracy numeric, distance within
`MAX_DISTANCE_METERS`, accuracy within `MAX_ACCURACY_METERS`. -/
def gpsVerifiedOf (env : Env) (office : Office)
    (lat lng accuracy : Option ℚ) : Bool :=
  match lat, lng, accuracy with
  | some la, some ln, some ac =>
      decide (env.dist la ln office.lat office.lng ≤ MAX_DISTANCE_METERS)
        && decide (ac ≤ MAX_ACCURACY_METERS)
  | _, _, _ => false

/-- The QR factor: a token is present, `verifyQRToken` accepts it, and its
`officeId` equals the subject's office id. -/
def qrVerifiedOf (env : Env) (office : Office) (qrToken : Option Token) : Bool :=
  match qrToken with
  | none => false
  | some t =>
    match verifyQRToken env.jwtSecret env.nowMs t with
    | none => false
    | some d => decide (d.officeId = office.id)

/-- The IP factor: the configured list contains `'*'` or the request IP. -/
def ipVerifiedOf (env : Env) (ip : String) : Bool :=
  env.officeIpRanges.contains "*" || env.officeIpRanges.contains ip

/-- The presence-gate denial response, identical in `checkIn` and
`checkOut`. -/
def locationDenial (distance : ℚ) (accuracy : Option ℚ)
    (ip : String) (ipVerified gpsVerified : Bool) : ErrorData :=
  .locationDenial "Location verification failed"
    { distanceMeters := jsRound distance
      accuracyMeters := accuracy
      allowedDistance := MAX_DISTANCE_METERS
      allowedAccuracy := MAX_ACCURACY_METERS
      ipAddress := ip
      isIpVerified := ipVerified
      isGpsVerified := gpsVerified }

/-- Tail of `checkIn` after the photo/face tier has fixed `photoVerified`
and `faceVerified`: build the factor object, run `evaluateMFA` and
`detectSpoofing`, construct the record, save it, and answer. -/
def finishCheckIn (uid : String) (req : CheckInRequest) (isLate : Bool)
    (distance : ℚ) (gpsVerified qrVerified ipVerified photoVerified faceVerified : Bool)
    (details : Option FaceVerificationDetails) : CheckInOutcome :=
  let factors : Factors := ⟨gpsVerified, qrVerified, ipVerified, photoVerified, faceVerified⟩
  let verified := evaluateMFA factors
  let spoofCheck := detectSpoofing distance req.accuracy
  let record : AttendanceRecord :=
    { userId := uid
      typ := "check-in"
      lat := req.lat
      lng := req.lng
      accuracyMeters := req.accuracy
      ipAddress := req.ip
      photoUrl := req.file
      qrTokenId := req.qrToken
      gpsVerified := gpsVerified
      qrVerified := qrVerified
      ipVerified := ipVerified
      photoVerified := some photoVerified
      verified := some verified
      isSuspicious := some spoofCheck.isSuspicious
      suspiciousReasons := some spoofCheck.reasons
      isLate := some isLate
      isEarlyLeave := none
      userComment := req.comment }
  .ok record
    { verified := verified
      factors := factors
      suspicious := spoofCheck.isSuspicious
      reasons := spoofCheck.reasons
      isLate := isLate
      faceVerification := details }

/-- Model of `checkIn(req, res)` as a pure function.  `authUser` is `req.user`
(`none` ⇒ 401); `dbUser` is the `User.findById` result (`none` or office
missing ⇒ 400); then the factor computations, the presence hard-gate, the
photo/face tier, MFA, spoofing, and the save. -/
def checkIn (env : Env) (authUser : Option String) (dbUser : Option DbUser)
    (req : CheckInRequest) : CheckInOutcome :=
  match authUser with
  | none => .error 401 "User not authenticated" none
  | some uid =>
  match dbUser with
  | none => .error 400 "User or Office not found" none
  | some u =>
  match u.office with
  | none => .error 400 "User or Office not found" none
  | some office =>
    let isLate := isLateFlag env.hour env.minute
    let distance := distanceOf env office req.lat req.lng req.accuracy
    let gpsVerified := gpsVerifiedOf env office req.lat req.lng req.accuracy
    let qrVerified := qrVerifiedOf env office req.qrToken
    let ipVerified := ipVerifiedOf env req.ip
    if !gpsVerified && !ipVerified then
      .error 403 "Access Denied: You must be at the office to check in."
        (some (locationDenial distance req.accuracy req.ip ipVerified gpsVerified))
    else if u.faceRegistered && u.faceId.isSome then
      if req.file.isNone then
        .error 400 "Face verification required. Please take a selfie to check in." none
      else if env.rekAvailable then
        let vr := verifyFace env.rekAvailable env.rekResponse uid
        if !vr.success then
          .error 400 "Face verification failed. Please try again." (some (.faceError vr.error))
        else if !vr.matched then
          .error 403 "Face does not match registered face. Access denied."
            (some (.faceMismatch vr.similarity 90))
        else
          finishCheckIn uid req isLate distance gpsVerified qrVerified ipVerified true true
            (some ⟨vr.matched, vr.similarity, vr.confidence⟩)
      else
        finishCheckIn uid req isLate distance gpsVerified qrVerified ipVerified
          req.file.isSome false none
    else
      finishCheckIn uid req isLate distance gpsVerified qrVerified ipVerified
        req.file.isSome false none

/-- Model of `checkOut(req, res)` as a pure function: the same auth, office lookup,
factor computations and presence hard-gate as `checkIn`; then (with no
photo/face tier, no MFA call and no spoofing call) `isEarlyLeave := hour <
17`, and a record carrying only the three factor flags, the early-leave
flag and the raw request data. -/
def checkOut (env : Env) (authUser : Option String) (dbUser : Option DbUser)
    (req : CheckOutRequest) : CheckOutOutcome :=
  match authUser with
  | none => .error 401 "User not authenticated" none
  | some uid =>
  match dbUser with
  | none => .error 400 "User or Office not found" none
  | some u =>
  match u.office with
  | none => .error 400 "User or Office not found" none
  | some office =>
    let distance := distanceOf env office req.lat req.lng req.accuracy
    let gpsVerified := gpsVerifiedOf env office req.lat req.lng req.accuracy
    let qrVerified := qrVerifiedOf env office req.qrToken
    let ipVerified := ipVerifiedOf env req.ip
    if !gpsVerified && !ipVerified then
      .error 403 "Access Denied: You must be at the office to check out."
        (some (locationDenial distance req.accuracy req.ip ipVerified gpsVerified))
    else
      let isEarlyLeave := decide (env.hour < 17)
      let record : AttendanceRecord :=
        { userId := uid
          typ := "check-out"
          lat := req.lat
          lng := req.lng
          accuracyMeters := req.accuracy
          ipAddress := req.ip
          photoUrl := none
          qrTokenId := req.qrToken
          gpsVerified := gpsVerified
          qrVerified := qrVerified
          ipVerified := ipVerified
          photoVerified := none
          verified := none
          isSuspicious := none
          suspiciousReasons := none
          isLate := none
          isEarlyLeave := some isEarlyLeave
          userComment := req.comment }
      .ok record
        { isEarlyLeave := isEarlyLeave
          gpsVerified := gpsVerified
          qrVerified := qrVerified
          ipVerified := ipVerified }

/-! ### Spec-side comparison definitions and observers -/

/-- Modelled from the spec (§4.5): the claimed decision counts only the
four factors {location, token, network, photo}; face-identity is said to
be informational only.  Kept separate from `evaluateMFA` (the code) to
compare the two. -/
def specFourFactorCount (f : Factors) : Nat :=
  ([f.gpsVerified, f.qrVerified, f.ipVerified, f.photoVerified].filter (fun b => b)).length

/-- Modelled from the spec (§4.5): `verified = passedCount >= REQUIRED_FACTORS`
over the four factors only. -/
def specVerified (f : Factors) : Bool :=
  REQUIRED_FACTORS ≤ specFourFactorCount f

/-- The record a check-in outcome wrote to storage, if any. -/
def CheckInOutcome.savedRecord : CheckInOutcome → Option AttendanceRecord
  | .ok r _ => some r
  | .error _ _ _ => none

/-- The record a check-out outcome wrote to storage, if any. -/
def CheckOutOutcome.savedRecord : CheckOutOutcome → Option AttendanceRecord
  | .ok r _ => some r
  | .error _ _ _ => none

/-! ### Concrete fixtures for witnesses and counterexamples -/

/-- A sample office. -/
def testOffice : Office := ⟨"off-1", 0, 0⟩

/-- A user assigned to `testOffice` with no enrolled face. -/
def plainUser : DbUser := ⟨some testOffice, false, none⟩

/-- A user assigned to `testOffice` with an enrolled face template. -/
def enrolledUser : DbUser := ⟨some testOffice, true, some "face-1"⟩

/-- An environment whose geo utility always answers 1000 m and whose
trusted IP list is empty: both presence factors fail. -/
def baseEnv : Env :=
  { dist := fun _ _ _ _ => 1000
    officeIpRanges := []
    jwtSecret := "secret"
    nowMs := 1000
    hour := 9
    minute := 30
    rekAvailable := false
    rekResponse := .ok [] }

/-- A request with numeric coordinates, no token and no photo. -/
def farReq : CheckInRequest :=
  ⟨some 5, some 5, some 10, none, none, "10.0.0.9", none⟩

/-- The matching check-out request. -/
def farOutReq : CheckOutRequest :=
  ⟨some 5, some 5, some 10, none, "10.0.0.9", none⟩

/-- Environment `baseEnv` with a wildcard IP allow-list (network factor passes) and
the clock at exactly 10:00. -/
def lateEnv : Env := { baseEnv with officeIpRanges := ["*"], hour := 10, minute := 0 }

/-- Environment `baseEnv` with a wildcard IP allow-list only. -/
def wildcardEnv : Env := { baseEnv with officeIpRanges := ["*"] }

/-- Environment `baseEnv` with a wildcard IP allow-list, the face oracle available,
and the oracle answering with a match for a different identity. -/
def faceEnv : Env :=
  { baseEnv with
    officeIpRanges := ["*"]
    rekAvailable := true
    rekResponse := .ok [⟨"someone-else", 95, 99, "fid-9"⟩] }

/-- Request `farReq` with a probe image attached. -/
def faceReq : CheckInRequest := { farReq with file := some "probe.jpg" }

/-- Record that `checkIn lateEnv (some "u1") (some plainUser) farReq`
persists: network factor only, unverified, flagged for distance, not late
at 10:00 sharp. -/
def c7rec : AttendanceRecord :=
  { userId := "u1"
    typ := "check-in"
    lat := some 5
    lng := some 5
    accuracyMeters := some 10
    ipAddress := "10.0.0.9"
    photoUrl := none
    qrTokenId := none
    gpsVerified := false
    qrVerified := false
    ipVerified := true
    photoVerified := some false
    verified := some false
    isSuspicious := some true
    suspiciousReasons := some ["distance_out_of_range"]
    isLate := some false
    isEarlyLeave := none
    userComment := none }

/-- The report accompanying `c7rec`. -/
def c7rep : CheckInReport :=
  { verified := false
    factors := ⟨false, false, true, false, false⟩
    suspicious := true
    reasons := ["distance_out_of_range"]
    isLate := false
    faceVerification := none }

/-- Record that `checkOut lateEnv (some "u1") (some plainUser) farOutReq`
persists: only the three factor flags and the early-leave flag are set. -/
def c9rec : AttendanceRecord :=
  { userId := "u1"
    typ := "check-out"
    lat := some 5
    lng := some 5
    accuracyMeters := some 10
    ipAddress := "10.0.0.9"
    photoUrl := none
    qrTokenId := none
    gpsVerified := false
    qrVerified := false
    ipVerified := true
    photoVerified := none
    verified := none
    isSuspicious := none
    suspiciousReasons := none
    isLate := none
    isEarlyLeave := some true
    userComment := none }

/-- The report accompanying `c9rec`. -/
def c9rep : CheckOutReport :=
  { isEarlyLeave := true
    gpsVerified := false
    qrVerified := false
    ipVerified := true }

/-! ## Theorems -/

/-- C8 — For every input to the spoofing detector, `isSuspicious` is
true iff the reason list is non-empty; `'gps_accuracy_too_low'` is present
iff the reported accuracy is a number strictly above `MAX_ACCURACY_METERS`;
`'distance_out_of_range'` is present iff the computed distance strictly
exceeds the fixed 200 m ceiling (a literal, independent of
`MAX_DISTANCE_METERS`). -/
theorem C8_detectSpoofing_characterization (d : ℚ) (a : Option ℚ) :
    ((detectSpoofing d a).isSuspicious = true ↔ (detectSpoofing d a).reasons ≠ []) ∧
    ("gps_accuracy_too_low" ∈ (detectSpoofing d a).reasons ↔
      ∃ x, a = some x ∧ MAX_ACCURACY_METERS < x) ∧
    ("distance_out_of_range" ∈ (detectSpoofing d a).reasons ↔ 200 < d) := by
  rcases a with _ | x
  · by_cases hd : (200 : ℚ) < d
    · simp [detectSpoofing, jsGtOpt, hd]
    · simp [detectSpoofing, jsGtOpt, hd]
  · by_cases ha : MAX_ACCURACY_METERS < x
    · by_cases hd : (200 : ℚ) < d
      · simp [detectSpoofing, jsGtOpt, ha, hd]
      · simp [detectSpoofing, jsGtOpt, ha, hd]
    · by_cases hd : (200 : ℚ) < d
      · simp [detectSpoofing, jsGtOpt, ha, hd]
      · simp [detectSpoofing, jsGtOpt, ha, hd]

/-- C2 (counterexample) — The claim "`verified` equals (count of true
factors among exactly the four {location, token, network, photo}) ≥
`REQUIRED_FACTORS`, and face-identity has no influence" is false: the
controller passes a five-field object and `Object.values` counts
`faceVerified` too.  With only `photoVerified` and `faceVerified` true,
the code verifies (2 ≥ 2) while the four-factor count is 1 < 2. -/
theorem C2_counterexample :
    evaluateMFA ⟨false, false, false, true, true⟩ = true ∧
    specVerified ⟨false, false, false, true, true⟩ = false ∧
    specFourFactorCount ⟨false, false, false, true, true⟩ = 1 := by
  decide

/-- C2 (amended) — `verified` equals (number of true flags among the
five values passed by the controller {location, token, network, photo,
face-identity}) ≥ `REQUIRED_FACTORS`; the face-identity flag is counted
like any other factor. -/
theorem C2_amended_five_factor_count (f : Factors) :
    evaluateMFA f = true ↔
      REQUIRED_FACTORS ≤
        (cond f.gpsVerified 1 0) + (cond f.qrVerified 1 0) + (cond f.ipVerified 1 0)
          + (cond f.photoVerified 1 0) + (cond f.faceVerified 1 0) := by
  rcases f with ⟨g, q, i, p, fa⟩
  cases g <;> cases q <;> cases i <;> cases p <;> cases fa <;> decide

/-- Supporting observation: on the factor combinations the check-in
controller can actually reach — a true face flag forces a true photo flag,
and the presence gate guarantees location or network — the five-value
decision coincides with the spec's four-factor decision, which is why the
extra counted flag goes unnoticed in practice. -/
lemma evaluateMFA_eq_specVerified_of_reachable (f : Factors)
    (h1 : f.faceVerified = true → f.photoVerified = true)
    (h2 : f.faceVerified = true → f.gpsVerified = true ∨ f.ipVerified = true) :
    evaluateMFA f = specVerified f := by
  rcases f with ⟨g, q, i, p, fa⟩
  revert h1 h2
  cases g <;> cases q <;> cases i <;> cases p <;> cases fa <;> decide

/-- C10 — A token whose signature verifies but whose payload lacks
`expiresAt`, or carries the falsy value `0`, skips the expiry check
entirely: `verifyQRToken` returns the decoded claims at every current
time, so the token never expires. -/
theorem C10_falsy_expiry_never_expires (secret : String) (nowMs : ℤ) (p : JwtPayload)
    (h : p.expiresAt = none ∨ p.expiresAt = some 0) :
    verifyQRToken secret nowMs (.signed p secret) = some p := by
  rcases h with h | h <;> simp [verifyQRToken, jwtVerify, h]

/-- C10 (witness) — concrete run: a payload without `expiresAt`,
checked far in the future, is still accepted. -/
theorem C10_falsy_expiry_never_expires_witness :
    verifyQRToken "secret" 99999999999 (.signed ⟨"off-1", none, "admin"⟩ "secret")
      = some ⟨"off-1", none, "admin"⟩ :=
  C10_falsy_expiry_never_expires "secret" 99999999999 ⟨"off-1", none, "admin"⟩ (Or.inl rfl)

/-- C5 (counterexample) — The claim requires the current time to be
*strictly before* the expiry instant (a token whose expiry equals the
current time should be invalid), but the code rejects only when
`expiresAt < Date.now()`: at `now = expiresAt` the token is accepted. -/
theorem C5_counterexample :
    verifyQRToken "secret" 1000 (.signed ⟨"off-1", some 1000, "admin"⟩ "secret")
      = some ⟨"off-1", some 1000, "admin"⟩ ∧
    ¬ ((1000 : ℤ) < 1000) := by
  decide

/-- C5 (amended) — `verifyQRToken` returns the decoded claims exactly
when the signature/integrity check succeeds AND the expiry claim does not
reject it, where the expiry claim rejects only a payload whose `expiresAt`
is a non-zero instant *strictly earlier* than the current time (so a token
is still valid at its exact expiry instant, and a missing or zero
`expiresAt` never rejects); malformed input never throws and uniformly
yields the invalid (`none`) result. -/
theorem C5_amended_verify_characterization (secret : String) (nowMs : ℤ) :
    (∀ t d, verifyQRToken secret nowMs t = some d ↔
      jwtVerify t secret = Except.ok d ∧
        (d.expiresAt = none ∨ d.expiresAt = some 0 ∨
          ∃ e, d.expiresAt = some e ∧ nowMs ≤ e)) ∧
    (∀ s, verifyQRToken secret nowMs (Token.malformed s) = none) := by
  constructor
  · intro t d
    cases t with
    | malformed s => simp [verifyQRToken, jwtVerify]
    | signed p s =>
      by_cases hs : s = secret
      · subst hs
        constructor
        · intro h
          have hd : p = d := by
            by_contra hne
            rcases hp : p.expiresAt with _ | e <;>
              simp [verifyQRToken, jwtVerify, hp] at h <;> first
                | exact hne h
                | (rcases h with ⟨_, h2⟩; exact hne h2)
          subst hd
          refine ⟨by simp [jwtVerify], ?_⟩
          rcases hp : p.expiresAt with _ | e
          · exact Or.inl rfl
          · by_cases he0 : e = 0
            · subst he0
              exact Or.inr (Or.inl rfl)
            · refine Or.inr (Or.inr ⟨e, rfl, ?_⟩)
              by_contra hlt
              push_neg at hlt
              simp [verifyQRToken, jwtVerify, hp, he0, hlt] at h
        · rintro ⟨hok, hexp⟩
          have hd : p = d := by
            simpa [jwtVerify] using hok
          subst hd
          rcases hexp with hp | hp | ⟨e, hp, he⟩
          · simp [verifyQRToken, jwtVerify, hp]
          · simp [verifyQRToken, jwtVerify, hp]
          · have : ¬ (e ≠ 0 ∧ e < nowMs) := by
              rintro ⟨_, hlt⟩
              omega
            simp [verifyQRToken, jwtVerify, hp, this]
      · simp [verifyQRToken, jwtVerify, hs]
  · intro s
    simp [verifyQRToken, jwtVerify]

/-- C6 — Round-trip: for every workplace id, issuer and lifetime, a
token produced by `generateQRToken` at a (positive) generation time and
decoded with the same secret before its expiry instant yields back exactly
the encoded workplace id and expiry instant; decoded strictly after the
expiry instant it yields `none`, exactly as a token whose signature does
not verify does. -/
theorem C6_roundtrip (secret otherSecret officeId createdBy : String)
    (genTime mins nowMs : ℤ) (hgen : 0 < genTime) (hmins : 0 ≤ mins) :
    (nowMs < genTime + mins * 60 * 1000 →
      verifyQRToken secret nowMs (generateQRToken secret genTime officeId createdBy mins) =
        some ⟨officeId, some (genTime + mins * 60 * 1000), createdBy⟩) ∧
    (genTime + mins * 60 * 1000 < nowMs →
      verifyQRToken secret nowMs (generateQRToken secret genTime officeId createdBy mins) =
        none) ∧
    (otherSecret ≠ secret →
      verifyQRToken otherSecret nowMs (generateQRToken secret genTime officeId createdBy mins) =
        none) := by
  have hpos : 0 < genTime + mins * 60 * 1000 := by
    have h60 : 0 ≤ mins * 60 * 1000 :=
      mul_nonneg (mul_nonneg hmins (by norm_num)) (by norm_num)
    linarith
  refine ⟨?_, ?_, ?_⟩
  · intro hnow
    have hcond : ¬ (genTime + mins * 60 * 1000 ≠ 0 ∧ genTime + mins * 60 * 1000 < nowMs) := by
      rintro ⟨_, hlt⟩
      omega
    simp [generateQRToken, verifyQRToken, jwtVerify, hcond]
  · intro hnow
    have hcond : genTime + mins * 60 * 1000 ≠ 0 ∧ genTime + mins * 60 * 1000 < nowMs :=
      ⟨by omega, hnow⟩
    simp [generateQRToken, verifyQRToken, jwtVerify, hcond]
  · intro hne
    simp [generateQRToken, verifyQRToken, jwtVerify, hne.symm]

/-- C6 (witness) — concrete run of the round-trip: a token generated
at time 1 with a 60-minute lifetime decodes to its payload at time 50,
decodes to `none` at a time past its expiry, and decodes to `none` under a
different secret. -/
theorem C6_roundtrip_witness :
    verifyQRToken "secret" 50 (generateQRToken "secret" 1 "off-1" "admin" 60) =
      some ⟨"off-1", some (1 + 60 * 60 * 1000), "admin"⟩ ∧
    verifyQRToken "secret" 99999999 (generateQRToken "secret" 1 "off-1" "admin" 60) = none ∧
    verifyQRToken "other" 99999999 (generateQRToken "secret" 1 "off-1" "admin" 60) = none :=
  ⟨(C6_roundtrip "secret" "other" "off-1" "admin" 1 60 50
      (by norm_num) (by norm_num)).1 (by norm_num),
   (C6_roundtrip "secret" "other" "off-1" "admin" 1 60 99999999
      (by norm_num) (by norm_num)).2.1 (by norm_num),
   (C6_roundtrip "secret" "other" "off-1" "admin" 1 60 99999999
      (by norm_num) (by norm_num)).2.2 (by decide)⟩

/-- Helper: `finishCheckIn` writes the `isLate` flag it is given into both
the record and the report. -/
lemma finishCheckIn_ok_isLate (uid : String) (req : CheckInRequest) (isLate : Bool)
    (distance : ℚ) (g q i p f : Bool) (det : Option FaceVerificationDetails)
    (r : AttendanceRecord) (rep : CheckInReport)
    (h : finishCheckIn uid req isLate distance g q i p f det = .ok r rep) :
    r.isLate = some isLate ∧ rep.isLate = isLate := by
  simp only [finishCheckIn, CheckInOutcome.ok.injEq] at h
  obtain ⟨h1, h2⟩ := h
  subst h1
  subst h2
  exact ⟨rfl, rfl⟩

/-- Helper: every record and report a successful `checkIn` produces carry
`isLateFlag hour minute`, whatever the verification outcome was. -/
lemma checkIn_ok_isLate (env : Env) (uid : String) (u : DbUser) (req : CheckInRequest)
    (r : AttendanceRecord) (rep : CheckInReport)
    (hok : checkIn env (some uid) (some u) req = .ok r rep) :
    r.isLate = some (isLateFlag env.hour env.minute) ∧
    rep.isLate = isLateFlag env.hour env.minute := by
  rcases ho : u.office with _ | office
  · simp [checkIn, ho] at hok
  · simp only [checkIn, ho] at hok
    split at hok
    · simp at hok
    · split at hok
      · split at hok
        · simp at hok
        · split at hok
          · split at hok
            · simp at hok
            · split at hok
              · simp at hok
              · exact finishCheckIn_ok_isLate _ _ _ _ _ _ _ _ _ _ _ _ hok
          · exact finishCheckIn_ok_isLate _ _ _ _ _ _ _ _ _ _ _ _ hok
      · exact finishCheckIn_ok_isLate _ _ _ _ _ _ _ _ _ _ _ _ hok

/-- C1 — For every check-in and check-out request by an authenticated
subject with an assigned office, if neither the GPS factor nor the IP
factor evaluates to true, the operation is rejected with the 403
structured denial (rounded distance, reported accuracy, both configured
thresholds, the egress address, and the two presence flags) and the
storage write is never reached. -/
theorem C1_presence_gate (env : Env) (uid : String) (u : DbUser) (office : Office)
    (cireq : CheckInRequest) (coreq : CheckOutRequest)
    (hoff : u.office = some office)
    (hg1 : gpsVerifiedOf env office cireq.lat cireq.lng cireq.accuracy = false)
    (hi1 : ipVerifiedOf env cireq.ip = false)
    (hg2 : gpsVerifiedOf env office coreq.lat coreq.lng coreq.accuracy = false)
    (hi2 : ipVerifiedOf env coreq.ip = false) :
    checkIn env (some uid) (some u) cireq =
      .error 403 "Access Denied: You must be at the office to check in."
        (some (locationDenial (distanceOf env office cireq.lat cireq.lng cireq.accuracy)
          cireq.accuracy cireq.ip false false)) ∧
    (checkIn env (some uid) (some u) cireq).persisted = 0 ∧
    checkOut env (some uid) (some u) coreq =
      .error 403 "Access Denied: You must be at the office to check out."
        (some (locationDenial (distanceOf env office coreq.lat coreq.lng coreq.accuracy)
          coreq.accuracy coreq.ip false false)) ∧
    (checkOut env (some uid) (some u) coreq).persisted = 0 := by
  have e1 : checkIn env (some uid) (some u) cireq =
      .error 403 "Access Denied: You must be at the office to check in."
        (some (locationDenial (distanceOf env office cireq.lat cireq.lng cireq.accuracy)
          cireq.accuracy cireq.ip false false)) := by
    simp [checkIn, hoff, hg1, hi1]
  have e2 : checkOut env (some uid) (some u) coreq =
      .error 403 "Access Denied: You must be at the office to check out."
        (some (locationDenial (distanceOf env office coreq.lat coreq.lng coreq.accuracy)
          coreq.accuracy coreq.ip false false)) := by
    simp [checkOut, hoff, hg2, hi2]
  exact ⟨e1, by rw [e1]; rfl, e2, by rw [e2]; rfl⟩

/-- C1 (witness) — concrete run: 1000 m from the office, no trusted
IP: both operations answer the 403 denial and persist nothing. -/
theorem C1_presence_gate_witness :
    checkIn baseEnv (some "u1") (some plainUser) farReq =
      .error 403 "Access Denied: You must be at the office to check in."
        (some (locationDenial (distanceOf baseEnv testOffice farReq.lat farReq.lng farReq.accuracy)
          farReq.accuracy farReq.ip false false)) ∧
    (checkIn baseEnv (some "u1") (some plainUser) farReq).persisted = 0 ∧
    checkOut baseEnv (some "u1") (some plainUser) farOutReq =
      .error 403 "Access Denied: You must be at the office to check out."
        (some (locationDenial (distanceOf baseEnv testOffice farOutReq.lat farOutReq.lng farOutReq.accuracy)
          farOutReq.accuracy farOutReq.ip false false)) ∧
    (checkOut baseEnv (some "u1") (some plainUser) farOutReq).persisted = 0 :=
  C1_presence_gate baseEnv "u1" plainUser testOffice farReq farOutReq rfl
    (by decide) (by decide) (by decide) (by decide)

/-- C7 (counterexample) — The claim "`isLate` is true iff the local
time-of-day is at or after the 10:00 cutoff (so 10:00:00 exactly, and any
time in the 10:00 minute, counts as late)" is false: the code computes
`(hour >= 10 && minutes > 0) || hour > 10`, so a check-in recorded at
10:00 (minute 0) is persisted with `isLate = false`. -/
theorem C7_counterexample :
    lateEnv.hour = 10 ∧ lateEnv.minute = 0 ∧
    isLateFlag 10 0 = false ∧
    (checkIn lateEnv (some "u1") (some plainUser) farReq).persisted = 1 ∧
    ((checkIn lateEnv (some "u1") (some plainUser) farReq).savedRecord.map
      (fun r => r.isLate)) = some (some false) := by
  decide

/-- C7 (amended) — For every persisted check-in, `isLate` (in the
record and in the report) equals `isLateFlag hour minute`, regardless of
the verification outcome; and that flag is true exactly when the local
time-of-day is at or after 10:01 — i.e. strictly after the 10:00 minute
(times 10:00:00–10:00:59 are *not* late). -/
theorem C7_amended_isLate (env : Env) (uid : String) (u : DbUser) (req : CheckInRequest)
    (h m : Nat) (r : AttendanceRecord) (rep : CheckInReport)
    (hok : checkIn env (some uid) (some u) req = .ok r rep) :
    r.isLate = some (isLateFlag env.hour env.minute) ∧
    rep.isLate = isLateFlag env.hour env.minute ∧
    (isLateFlag h m = true ↔ 10 < h ∨ (h = 10 ∧ 1 ≤ m)) := by
  obtain ⟨h1, h2⟩ := checkIn_ok_isLate env uid u req r rep hok
  refine ⟨h1, h2, ?_⟩
  simp only [isLateFlag, Bool.or_eq_true, Bool.and_eq_true, decide_eq_true_eq]
  omega

/-- C7 (witness) — concrete run at 10:00 sharp: the persisted record
and report carry the flag value, which at hour 10, minute 0 is false. -/
theorem C7_amended_isLate_witness :
    c7rec.isLate = some (isLateFlag lateEnv.hour lateEnv.minute) ∧
    c7rep.isLate = isLateFlag lateEnv.hour lateEnv.minute ∧
    (isLateFlag 10 0 = true ↔ 10 < 10 ∨ (10 = 10 ∧ 1 ≤ 0)) :=
  C7_amended_isLate lateEnv "u1" plainUser farReq 10 0 c7rec c7rep (by decide)

/-- C9 (counterexample) — The claim that check-out mirrors check-in
omitting only the photo/face tier — in particular that an accepted
check-out still runs the spoofing detector and the MFA decision and its
record carries the aggregate `verified` flag and the suspicion flag with
reasons just as a check-in record does — is false: on the very same
request data, the accepted check-in record carries
`verified = some false` and `isSuspicious = some true`, while the accepted
check-out record carries no `verified`, `isSuspicious` or
`suspiciousReasons` at all (the controller never calls `evaluateMFA` or
`detectSpoofing` on check-out). -/
theorem C9_counterexample :
    (checkOut lateEnv (some "u1") (some plainUser) farOutReq).persisted = 1 ∧
    ((checkOut lateEnv (some "u1") (some plainUser) farOutReq).savedRecord.map
      (fun r => (r.verified, r.isSuspicious, r.suspiciousReasons))) =
        some (none, none, none) ∧
    ((checkIn lateEnv (some "u1") (some plainUser) farReq).savedRecord.map
      (fun r => (r.verified, r.isSuspicious, r.suspiciousReasons))) =
        some (some false, some true, some ["distance_out_of_range"]) := by
  decide

/-- C9 (amended) — Check-out mirrors check-in's authentication, office
lookup, GPS/QR/IP factor evaluation and presence hard-gate, but omits —
besides the photo/face tier — the MFA decision and the spoofing detector:
every accepted check-out persists a record whose `verified`,
`isSuspicious`, `suspiciousReasons`, `photoVerified` and `isLate` fields
are unset, whose three individual factor flags are exactly the shared
factor functions, and whose `isEarlyLeave` is `hour < 17`. -/
theorem C9_amended_checkout_no_mfa (env : Env) (uid : String) (u : DbUser)
    (office : Office) (req : CheckOutRequest)
    (r : AttendanceRecord) (rep : CheckOutReport)
    (hoff : u.office = some office)
    (hok : checkOut env (some uid) (some u) req = .ok r rep) :
    r.verified = none ∧ r.isSuspicious = none ∧ r.suspiciousReasons = none ∧
    r.photoVerified = none ∧ r.isLate = none ∧
    r.gpsVerified = gpsVerifiedOf env office req.lat req.lng req.accuracy ∧
    r.qrVerified = qrVerifiedOf env office req.qrToken ∧
    r.ipVerified = ipVerifiedOf env req.ip ∧
    r.isEarlyLeave = some (decide (env.hour < 17)) ∧
    rep.isEarlyLeave = decide (env.hour < 17) := by
  simp only [checkOut, hoff] at hok
  split at hok
  · simp at hok
  · simp only [CheckOutOutcome.ok.injEq] at hok
    obtain ⟨h1, h2⟩ := hok
    subst h1
    subst h2
    exact ⟨rfl, rfl, rfl, rfl, rfl, rfl, rfl, rfl, rfl, rfl⟩

/-- C9 (witness) — concrete accepted check-out at 10:00 over the
wildcard network: no MFA or suspicion fields, factor flags as computed,
early leave true. -/
theorem C9_amended_checkout_no_mfa_witness :
    c9rec.verified = none ∧ c9rec.isSuspicious = none ∧ c9rec.suspiciousReasons = none ∧
    c9rec.photoVerified = none ∧ c9rec.isLate = none ∧
    c9rec.gpsVerified = gpsVerifiedOf lateEnv testOffice farOutReq.lat farOutReq.lng farOutReq.accuracy ∧
    c9rec.qrVerified = qrVerifiedOf lateEnv testOffice farOutReq.qrToken ∧
    c9rec.ipVerified = ipVerifiedOf lateEnv farOutReq.ip ∧
    c9rec.isEarlyLeave = some (decide (lateEnv.hour < 17)) ∧
    c9rep.isEarlyLeave = decide (lateEnv.hour < 17) :=
  C9_amended_checkout_no_mfa lateEnv "u1" plainUser testOffice farOutReq c9rec c9rep
    rfl (by decide)

/-- C3 — For every check-in by a face-enrolled subject with a probe
image where the face oracle is available and its answer contains no match
for the claimed identity (no match at all, or matches only for other
identities), the attempt is rejected and nothing is persisted; when the
presence gate passes, the response is precisely the 403 face-mismatch
denial — never a persisted record with a false face factor. -/
theorem C3_face_no_match_rejected (env : Env) (uid : String) (u : DbUser)
    (office : Office) (req : CheckInRequest) (found : List FaceMatch)
    (hoff : u.office = some office)
    (hreg : u.faceRegistered = true)
    (hfid : u.faceId.isSome = true)
    (hfile : req.file.isSome = true)
    (havail : env.rekAvailable = true)
    (hresp : env.rekResponse = .ok found)
    (hnomatch : found.find? (fun m => m.externalImageId = uid) = none) :
    (checkIn env (some uid) (some u) req).persisted = 0 ∧
    (checkIn env (some uid) (some u) req).isError = true ∧
    (gpsVerifiedOf env office req.lat req.lng req.accuracy = true ∨
        ipVerifiedOf env req.ip = true →
      checkIn env (some uid) (some u) req =
        .error 403 "Face does not match registered face. Access denied."
          (some (.faceMismatch none 90))) := by
  have hfn : req.file.isNone = false := by
    rcases hf : req.file with _ | v
    · rw [hf] at hfile
      simp at hfile
    · rfl
  have hS : (verifyFace true env.rekResponse uid).success = true ∧
      (verifyFace true env.rekResponse uid).matched = false ∧
      (verifyFace true env.rekResponse uid).similarity = none := by
    rw [hresp]
    cases found with
    | nil => simp [verifyFace]
    | cons a l => simp [verifyFace, hnomatch]
  by_cases hgate : (!gpsVerifiedOf env office req.lat req.lng req.accuracy
      && !ipVerifiedOf env req.ip) = true
  · have hg : gpsVerifiedOf env office req.lat req.lng req.accuracy = false := by
      rcases Bool.and_eq_true _ _ |>.mp hgate with ⟨h1, _⟩
      simpa using h1
    have hi : ipVerifiedOf env req.ip = false := by
      rcases Bool.and_eq_true _ _ |>.mp hgate with ⟨_, h2⟩
      simpa using h2
    refine ⟨?_, ?_, ?_⟩
    · simp [checkIn, hoff, hgate, CheckInOutcome.persisted]
    · simp [checkIn, hoff, hgate, CheckInOutcome.isError]
    · rintro (hd | hd)
      · rw [hd] at hg
        simp at hg
      · rw [hd] at hi
        simp at hi
  · rw [Bool.not_eq_true] at hgate
    have hout : checkIn env (some uid) (some u) req =
        .error 403 "Face does not match registered face. Access denied."
          (some (.faceMismatch none 90)) := by
      simp [checkIn, hoff, hgate, hreg, hfid, hfn, havail, hS.1, hS.2.1, hS.2.2]
    exact ⟨by rw [hout]; rfl, by rw [hout]; rfl, fun _ => hout⟩

/-- C3 (witness) — concrete run: the oracle matches a different
identity; the check-in answers the 403 face denial and persists nothing. -/
theorem C3_face_no_match_rejected_witness :
    (checkIn faceEnv (some "u1") (some enrolledUser) faceReq).persisted = 0 ∧
    (checkIn faceEnv (some "u1") (some enrolledUser) faceReq).isError = true ∧
    checkIn faceEnv (some "u1") (some enrolledUser) faceReq =
      .error 403 "Face does not match registered face. Access denied."
        (some (.faceMismatch none 90)) :=
  have h := C3_face_no_match_rejected faceEnv "u1" enrolledUser testOffice faceReq
    [⟨"someone-else", 95, 99, "fid-9"⟩] rfl rfl rfl rfl rfl rfl (by decide)
  ⟨h.1, h.2.1, h.2.2 (Or.inr (by decide))⟩

/-- C4 (counterexample) — The claim that a face-enrolled subject
submitting no probe image is rejected *before any factor evaluation
proceeds* is false: the GPS/QR/IP factors and the presence gate are
evaluated first, and when they fail, the returned denial is the 403
location denial produced by factor evaluation — not the 400
mandatory-probe denial. -/
theorem C4_counterexample :
    enrolledUser.faceRegistered = true ∧ farReq.file = none ∧
    (checkIn baseEnv (some "u1") (some enrolledUser) farReq).errorStatus = some 403 ∧
    (checkIn baseEnv (some "u1") (some enrolledUser) farReq).errorMessage =
      some "Access Denied: You must be at the office to check in." ∧
    (checkIn baseEnv (some "u1") (some enrolledUser) farReq).errorMessage ≠
      some "Face verification required. Please take a selfie to check in." := by
  decide

/-- C4 (amended) — For every check-in by a subject with an enrolled
face template and no probe image, the operation is rejected and nothing is
persisted; the rejection happens before the face oracle is consulted and
before the MFA decision, but after the GPS/QR/IP factor evaluation and the
presence hard-gate: when the gate passes, the response is precisely the
400 mandatory-probe denial, and when the gate fails, the location denial
takes precedence. -/
theorem C4_amended_probe_required (env : Env) (uid : String) (u : DbUser)
    (office : Office) (req : CheckInRequest)
    (hoff : u.office = some office)
    (hreg : u.faceRegistered = true)
    (hfid : u.faceId.isSome = true)
    (hnofile : req.file = none) :
    (checkIn env (some uid) (some u) req).persisted = 0 ∧
    (checkIn env (some uid) (some u) req).isError = true ∧
    (gpsVerifiedOf env office req.lat req.lng req.accuracy = true ∨
        ipVerifiedOf env req.ip = true →
      checkIn env (some uid) (some u) req =
        .error 400 "Face verification required. Please take a selfie to check in." none) := by
  have hfn : req.file.isNone = true := by
    rw [hnofile]
    rfl
  by_cases hgate : (!gpsVerifiedOf env office req.lat req.lng req.accuracy
      && !ipVerifiedOf env req.ip) = true
  · have hg : gpsVerifiedOf env office req.lat req.lng req.accuracy = false := by
      rcases Bool.and_eq_true _ _ |>.mp hgate with ⟨h1, _⟩
      simpa using h1
    have hi : ipVerifiedOf env req.ip = false := by
      rcases Bool.and_eq_true _ _ |>.mp hgate with ⟨_, h2⟩
      simpa using h2
    refine ⟨?_, ?_, ?_⟩
    · simp [checkIn, hoff, hgate, CheckInOutcome.persisted]
    · simp [checkIn, hoff, hgate, CheckInOutcome.isError]
    · rintro (hd | hd)
      · rw [hd] at hg
        simp at hg
      · rw [hd] at hi
        simp at hi
  · rw [Bool.not_eq_true] at hgate
    have hout : checkIn env (some uid) (some u) req =
        .error 400 "Face verification required. Please take a selfie to check in." none := by
      simp [checkIn, hoff, hgate, hreg, hfid, hfn]
    exact ⟨by rw [hout]; rfl, by rw [hout]; rfl, fun _ => hout⟩

/-- C4 (witness) — concrete run: enrolled subject on the trusted
network, no probe image: the 400 mandatory-probe denial, nothing
persisted. -/
theorem C4_amended_probe_required_witness :
    (checkIn wildcardEnv (some "u1") (some enrolledUser) farReq).persisted = 0 ∧
    (checkIn wildcardEnv (some "u1") (some enrolledUser) farReq).isError = true ∧
    checkIn wildcardEnv (some "u1") (some enrolledUser) farReq =
      .error 400 "Face verification required. Please take a selfie to check in." none :=
  have h := C4_amended_probe_required wildcardEnv "u1" enrolledUser testOffice farReq
    rfl rfl rfl rfl
  ⟨h.1, h.2.1, h.2.2 (Or.inr (by decide))⟩

end SmartAttendance
